import Mathlib

/-!
Verification of the response-normalization layer of the excuse-email
generator (`src/app.py`).  The Python function `parse_llm_response`
receives the raw JSON-derived response of an LLM endpoint (a Python
dict) and recovers an `ExcuseResponse` through an ordered cascade of
extraction strategies.  This file gives a shallow embedding of that
function and of the pydantic request/response models, and proves the
specification claims about them.

Modelling conventions:
* JSON-derived Python values are the inductive `JsonValue`; a raw
  response (typed `Dict[str, Any]` in the source) is an association
  list `Jdict`.
* Python exceptions are made explicit: fallible operations return
  `Except PyExc _`; the per-site `try/except` blocks of the source are
  embedded as matches on those results.
* JSON numbers are modelled as integers; inputs whose parse would
  produce a float (fraction/exponent syntax, NaN/Infinity) are mapped
  to a decode failure.  No claim depends on float payloads.
* Exception message texts (`str(e)`) are modelled by the abstract
  `excMessage`; no claim depends on the exact message wording.
-/

/-- JSON-derived Python value: the shape of everything that can appear
inside the raw LLM response or come out of `json.loads`. -/
inductive JsonValue where
  | null : JsonValue
  | bool : Bool → JsonValue
  | num : Int → JsonValue
  | str : String → JsonValue
  | arr : List JsonValue → JsonValue
  | obj : List (String × JsonValue) → JsonValue

/-- A raw response, as the source types it: `Dict[str, Any]`. -/
abbrev Jdict := List (String × JsonValue)

/-- The Python exceptions that the embedded code can raise.
`validationError` stands for pydantic's rejection of a non-`str` value
for a `str` field at `ExcuseResponse`/`ExcuseRequest` construction. -/
inductive PyExc where
  | jsonDecodeError : PyExc
  | typeError : PyExc
  | attributeError : PyExc
  | keyError : PyExc
  | indexError : PyExc
  | validationError : PyExc
deriving DecidableEq

/-- `ExcuseResponse` pydantic model (src/app.py lines 48-52). -/
structure ExcuseResponse where
  subject : String
  body : String
  success : Bool
  error : Option String
deriving DecidableEq

/-- `ExcuseRequest` pydantic model (src/app.py lines 40-46). -/
structure ExcuseRequest where
  category : String
  tone : String
  seriousness : Int
  recipient_name : String
  sender_name : String
  eta_when : String
deriving DecidableEq

/-- Construction of `ExcuseRequest`: pydantic validates
`seriousness` with `ge=1, le=5`; all other fields are plain strings. -/
def mkExcuseRequest (category tone : String) (seriousness : Int)
    (recipient_name sender_name eta_when : String) : Except PyExc ExcuseRequest :=
  if 1 ≤ seriousness ∧ seriousness ≤ 5 then
    Except.ok ⟨category, tone, seriousness, recipient_name, sender_name, eta_when⟩
  else Except.error PyExc.validationError

/-- First value for a key in a dict (Python `d[k]` / `k in d` source of truth). -/
def dictGetKey (d : List (String × JsonValue)) (k : String) : Option JsonValue :=
  match d with
  | [] => none
  | (k2, v) :: rest => if k2 == k then some v else dictGetKey rest k

/-- Python truthiness of a JSON-derived value (`if not content`). -/
def pyTruthy : JsonValue → Bool
  | JsonValue.null => false
  | JsonValue.bool b => b
  | JsonValue.num n => n != 0
  | JsonValue.str s => s != ""
  | JsonValue.arr xs => !xs.isEmpty
  | JsonValue.obj kvs => !kvs.isEmpty

/-- Python `len()` on a JSON-derived value; `TypeError` on scalars. -/
def pyLen : JsonValue → Except PyExc Nat
  | JsonValue.arr xs => Except.ok xs.length
  | JsonValue.obj kvs => Except.ok kvs.length
  | JsonValue.str s => Except.ok s.length
  | _ => Except.error PyExc.typeError

/-- Python `v[0]` on a JSON-derived value. -/
def pyIndex0 : JsonValue → Except PyExc JsonValue
  | JsonValue.arr (x :: _) => Except.ok x
  | JsonValue.arr [] => Except.error PyExc.indexError
  | JsonValue.str s =>
    match s.data with
    | c :: _ => Except.ok (JsonValue.str (String.mk [c]))
    | [] => Except.error PyExc.indexError
  | JsonValue.obj _ => Except.error PyExc.keyError
  | _ => Except.error PyExc.typeError

/-- Python `v.get(k, dflt)`: works on dicts, `AttributeError` otherwise. -/
def pyDotGet (v : JsonValue) (k : String) (dflt : JsonValue) : Except PyExc JsonValue :=
  match v with
  | JsonValue.obj kvs => Except.ok ((dictGetKey kvs k).getD dflt)
  | _ => Except.error PyExc.attributeError

/-- ASCII fragment of Python's regex `\s` / `str.strip` whitespace. -/
def pyIsSpace (c : Char) : Bool :=
  c == ' ' || c == '\t' || c == '\n' || c == '\r' || c == '\x0b' || c == '\x0c'

/-- Rest of the list after the first occurrence of `pat`; `none` if absent. -/
def findAfter (pat : List Char) : List Char → Option (List Char)
  | [] => none
  | c :: rest =>
    if pat.isPrefixOf (c :: rest) then some ((c :: rest).drop pat.length)
    else findAfter pat rest

/-- Substring test on character lists. -/
def containsSub (pat l : List Char) : Bool := (findAfter pat l).isSome

/-- Python `in` on a JSON-derived container: dict keys, list membership,
substring on strings; `TypeError` on scalars. -/
def pyIn (k : String) : JsonValue → Except PyExc Bool
  | JsonValue.obj kvs => Except.ok (kvs.any (fun p => p.1 == k))
  | JsonValue.arr xs =>
    Except.ok (xs.any (fun v =>
      match v with
      | JsonValue.str s => s == k
      | _ => false))
  | JsonValue.str s => Except.ok (containsSub k.data s.data)
  | _ => Except.error PyExc.typeError

/-- Python `parsed[k]` on a JSON-derived value. -/
def pyGetItem (p : JsonValue) (k : String) : Except PyExc JsonValue :=
  match p with
  | JsonValue.obj kvs =>
    match dictGetKey kvs k with
    | some v => Except.ok v
    | none => Except.error PyExc.keyError
  | _ => Except.error PyExc.typeError

/-- One pass of Python `s.replace(p1p2, rep)` for a two-character
pattern: non-overlapping, left to right, replacement not rescanned. -/
def replace2 (p1 p2 rep : Char) : List Char → List Char
  | c1 :: c2 :: rest =>
    if c1 = p1 ∧ c2 = p2 then rep :: replace2 p1 p2 rep rest
    else c1 :: replace2 p1 p2 rep (c2 :: rest)
  | l => l

/-- The body-cleanup chain of the source (line 238 and the analogous
sites): `.replace('\\n','\n').replace('\\"','"').replace("\\'","'").replace('\\\\','\\')`
applied in that order. -/
def cleanupEscapes (s : String) : String :=
  String.mk (replace2 '\\' '\\' '\\'
    (replace2 '\\' '\'' '\''
      (replace2 '\\' '"' '"'
        (replace2 '\\' 'n' '\n' s.data))))

/-- `parsed["body"].replace(...)`: `AttributeError` unless the value is a string. -/
def pyCleanBody : JsonValue → Except PyExc String
  | JsonValue.str s => Except.ok (cleanupEscapes s)
  | _ => Except.error PyExc.attributeError

/-- `ExcuseResponse(subject=parsed["subject"], body=..., success=True)`:
pydantic (v2) rejects a non-`str` subject with a validation error. -/
def mkSuccess (subjv : JsonValue) (body : String) : Except PyExc ExcuseResponse :=
  match subjv with
  | JsonValue.str subj => Except.ok ⟨subj, body, true, none⟩
  | _ => Except.error PyExc.validationError

/-- JSON whitespace accepted by `json.loads` between tokens. -/
def jskipWs (l : List Char) : List Char :=
  l.dropWhile (fun c => c == ' ' || c == '\t' || c == '\n' || c == '\r')

/-- Hexadecimal digit value for `\uXXXX` escapes. -/
def hexDigitVal (c : Char) : Option Nat :=
  if '0' ≤ c ∧ c ≤ '9' then some (c.toNat - 48)
  else if 'a' ≤ c ∧ c ≤ 'f' then some (c.toNat - 87)
  else if 'A' ≤ c ∧ c ≤ 'F' then some (c.toNat - 55)
  else none

/-- JSON string body parser (after the opening quote), with the escape
set of `json.loads`; raw control characters are rejected (strict mode). -/
def jparseStrAux : List Char → List Char → Option (String × List Char)
  | acc, '"' :: r => some (String.mk acc.reverse, r)
  | acc, '\\' :: '"' :: r => jparseStrAux ('"' :: acc) r
  | acc, '\\' :: '\\' :: r => jparseStrAux ('\\' :: acc) r
  | acc, '\\' :: '/' :: r => jparseStrAux ('/' :: acc) r
  | acc, '\\' :: 'b' :: r => jparseStrAux ('\x08' :: acc) r
  | acc, '\\' :: 'f' :: r => jparseStrAux ('\x0c' :: acc) r
  | acc, '\\' :: 'n' :: r => jparseStrAux ('\n' :: acc) r
  | acc, '\\' :: 'r' :: r => jparseStrAux ('\r' :: acc) r
  | acc, '\\' :: 't' :: r => jparseStrAux ('\t' :: acc) r
  | acc, '\\' :: 'u' :: h1 :: h2 :: h3 :: h4 :: r =>
    match hexDigitVal h1, hexDigitVal h2, hexDigitVal h3, hexDigitVal h4 with
    | some a, some b, some c, some d =>
      jparseStrAux (Char.ofNat (((a * 16 + b) * 16 + c) * 16 + d) :: acc) r
    | _, _, _, _ => none
  | _, '\\' :: _ => none
  | acc, c :: r => if c.toNat < 32 then none else jparseStrAux (c :: acc) r
  | _, [] => none

/-- Does the rest of the input begin a fraction or exponent?  Such
numbers are floats, outside this integer model (mapped to a decode
failure; no claim involves float payloads). -/
def headFracExp : List Char → Bool
  | c :: _ => c == '.' || c == 'e' || c == 'E'
  | [] => false

/-- Digit run to a natural number. -/
def digitsToNat (l : List Char) : Nat :=
  l.foldl (fun a c => a * 10 + (c.toNat - 48)) 0

/-- Unsigned JSON integer (`0` or a nonzero-led digit run, per the
`json` module's number grammar). -/
def jparseNat (l : List Char) : Option (Nat × List Char) :=
  match l with
  | c :: r =>
    if c == '0' then
      if headFracExp r then none else some (0, r)
    else if c.isDigit then
      let digits := (c :: r).takeWhile Char.isDigit
      let rest := (c :: r).dropWhile Char.isDigit
      if headFracExp rest then none else some (digitsToNat digits, rest)
    else none
  | [] => none

/-- Signed JSON integer. -/
def jparseNum (l : List Char) : Option (JsonValue × List Char) :=
  match l with
  | '-' :: r => (jparseNat r).map (fun p => (JsonValue.num (-(p.1 : Int)), p.2))
  | _ => (jparseNat l).map (fun p => (JsonValue.num (p.1 : Int), p.2))

/-- Insert a key into an object under construction: Python dicts keep
the first position of a repeated key but take the last value. -/
def insertKey (kvs : List (String × JsonValue)) (k : String) (v : JsonValue) :
    List (String × JsonValue) :=
  if kvs.any (fun p => p.1 == k) then
    kvs.map (fun p => if p.1 == k then (k, v) else p)
  else kvs ++ [(k, v)]

/-- Parser continuation kind: a value, the items of an array, or the
members of an object. -/
inductive PK where
  | val : PK
  | arrBody : List JsonValue → PK
  | objBody : List (String × JsonValue) → PK

/-- Fueled recursive-descent core of `json.loads`.  The fuel bounds the
number of nested parse steps; `jsonLoads` supplies more than any input
of its length can consume. -/
def jparseGo : Nat → PK → List Char → Option (JsonValue × List Char)
  | 0, _, _ => none
  | fuel + 1, PK.val, l =>
    match jskipWs l with
    | 'n' :: 'u' :: 'l' :: 'l' :: r => some (JsonValue.null, r)
    | 't' :: 'r' :: 'u' :: 'e' :: r => some (JsonValue.bool true, r)
    | 'f' :: 'a' :: 'l' :: 's' :: 'e' :: r => some (JsonValue.bool false, r)
    | '"' :: r =>
      match jparseStrAux [] r with
      | some (s, r2) => some (JsonValue.str s, r2)
      | none => none
    | '[' :: r =>
      (match jskipWs r with
       | ']' :: r2 => some (JsonValue.arr [], r2)
       | _ => jparseGo fuel (PK.arrBody []) r)
    | '{' :: r =>
      (match jskipWs r with
       | '}' :: r2 => some (JsonValue.obj [], r2)
       | _ => jparseGo fuel (PK.objBody []) r)
    | l2 => jparseNum l2
  | fuel + 1, PK.arrBody acc, l =>
    match jparseGo fuel PK.val l with
    | none => none
    | some (v, r) =>
      match jskipWs r with
      | ',' :: r2 => jparseGo fuel (PK.arrBody (acc ++ [v])) r2
      | ']' :: r2 => some (JsonValue.arr (acc ++ [v]), r2)
      | _ => none
  | fuel + 1, PK.objBody acc, l =>
    match jskipWs l with
    | '"' :: r =>
      match jparseStrAux [] r with
      | none => none
      | some (k, r2) =>
        match jskipWs r2 with
        | ':' :: r3 =>
          match jparseGo fuel PK.val r3 with
          | none => none
          | some (v, r4) =>
            match jskipWs r4 with
            | ',' :: r5 => jparseGo fuel (PK.objBody (insertKey acc k v)) r5
            | '}' :: r5 => some (JsonValue.obj (insertKey acc k v), r5)
            | _ => none
        | _ => none
    | _ => none

/-- `json.loads` on a string: whole input must be consumed; every
failure is a `JSONDecodeError`. -/
def jsonLoads (s : String) : Except PyExc JsonValue :=
  match jparseGo (2 * s.length + 4) PK.val s.data with
  | some (v, rest) =>
    if (jskipWs rest).isEmpty then Except.ok v else Except.error PyExc.jsonDecodeError
  | none => Except.error PyExc.jsonDecodeError

/-- Python `str.strip()` (ASCII whitespace fragment). -/
def pyStrip (s : String) : String :=
  String.mk (((s.data.dropWhile pyIsSpace).reverse.dropWhile pyIsSpace).reverse)

/-- Match a literal character-list prefix, returning the rest. -/
def matchLit : List Char → List Char → Option (List Char)
  | [], l => some l
  | _ :: _, [] => none
  | p :: ps, c :: cs => if c = p then matchLit ps cs else none

/-- Characters strictly before the first position where the closing
brace is immediately followed by the quote `vq` (the lazy `.*?` of
`(\{.*?\})` followed by the closing quote, under `re.DOTALL`). -/
def scanCloseQ (vq : Char) : List Char → Option (List Char)
  | c1 :: c2 :: rest =>
    if c1 = '}' ∧ c2 = vq then some []
    else (scanCloseQ vq (c2 :: rest)).map (fun mid => c1 :: mid)
  | _ => none

/-- Characters strictly before the first occurrence of `q` (the lazy
`.*?` of pattern 4, which has no closing-brace requirement). -/
def scanQuote (q : Char) : List Char → Option (List Char)
  | [] => none
  | c :: rest =>
    if c = q then some []
    else (scanQuote q rest).map (fun mid => c :: mid)

/-- Try one of the four `'text':`-style patterns of Approach 1 at this
start position: key quote `kq`, value quote `vq`, and whether the
captured group must end with a closing brace before the quote.  Returns
`group(1)`. -/
def tryTextAt (kq vq : Char) (needClose : Bool) (l : List Char) : Option (List Char) :=
  match matchLit [kq, 't', 'e', 'x', 't', kq, ':'] l with
  | none => none
  | some r1 =>
    match r1.dropWhile pyIsSpace with
    | q :: r3 =>
      if q = vq then
        match r3 with
        | b :: r4 =>
          if b = '{' then
            if needClose then
              match scanCloseQ vq r4 with
              | none => none
              | some mid => some (('{' :: mid) ++ ['}'])
            else
              match scanQuote vq r4 with
              | none => none
              | some mid => some ('{' :: mid)
          else none
        | [] => none
      else none
    | [] => none

/-- `re.search` driver: try the matcher at every start position from
the left and return the first success (leftmost-match semantics). -/
def searchScan (f : List Char → Option (List Char)) : List Char → Option (List Char)
  | [] => f []
  | c :: rest =>
    match f (c :: rest) with
    | some g => some g
    | none => searchScan f rest

/-- The four Approach-1 text patterns in source order (lines 224-229):
`(key quote, value quote, group requires closing brace)`. -/
def textPatternSpecs : List (Char × Char × Bool) :=
  [('\'', '\'', true), ('"', '"', true), ('\'', '"', true), ('"', '\'', false)]

/-- `re.search(pattern, content, re.DOTALL)` for an Approach-1 pattern. -/
def searchTextPat (sp : Char × Char × Bool) (l : List Char) : Option (List Char) :=
  searchScan (tryTextAt sp.1 sp.2.1 sp.2.2) l

/-- The literal `"subject"` probed for by the Approach-2 patterns. -/
def subjectLit : List Char := "\"subject\"".data
/-- The literal `"body"` probed for by the Approach-2 patterns. -/
def bodyLit : List Char := "\"body\"".data

/-- Interior up to the first closing brace; fails if an opening brace
comes first when `blockOpen` is true (the `[^{}]*` vs `[^}]*` character
classes of patterns 1 and 3 of Approach 2). -/
def splitAtFirstClose (blockOpen : Bool) : List Char → Option (List Char)
  | [] => none
  | c :: rest =>
    if c = '}' then some []
    else if blockOpen ∧ c = '{' then none
    else (splitAtFirstClose blockOpen rest).map (fun i => c :: i)

/-- Try `\{[^{}]*"subject"[^{}]*"body"[^{}]*\}` (or the `[^}]*`
variant) at this start position; returns `group(0)`. -/
def tryBraceAt (blockOpen : Bool) (l : List Char) : Option (List Char) :=
  match l with
  | '{' :: rest =>
    match splitAtFirstClose blockOpen rest with
    | none => none
    | some interior =>
      match findAfter subjectLit interior with
      | none => none
      | some afterS =>
        if containsSub bodyLit afterS then some (('{' :: interior) ++ ['}']) else none
  | _ => none

/-- Try `\{.*?"subject".*?"body".*?\}` (lazy, `re.DOTALL`) at this
start position: first `"subject"` after the brace, first `"body"` after
that, first `}` after that; returns `group(0)`. -/
def tryLazyAt (l : List Char) : Option (List Char) :=
  match l with
  | '{' :: rest =>
    match findAfter subjectLit rest with
    | none => none
    | some a1 =>
      match findAfter bodyLit a1 with
      | none => none
      | some a2 =>
        match findAfter ['}'] a2 with
        | none => none
        | some a3 => some (l.take (l.length - a3.length))
  | _ => none

/-- The three Approach-2 patterns in source order (lines 256-260). -/
inductive JPat where
  | noBraces : JPat
  | lazyScan : JPat
  | noClose : JPat
deriving DecidableEq

/-- `re.search` for an Approach-2 pattern. -/
def searchJsonPat : JPat → List Char → Option (List Char)
  | JPat.noBraces, l => searchScan (tryBraceAt true) l
  | JPat.lazyScan, l => searchScan tryLazyAt l
  | JPat.noClose, l => searchScan (tryBraceAt false) l

/-- Source order of the Approach-2 patterns. -/
def jsonPatternSpecs : List JPat := [JPat.noBraces, JPat.lazyScan, JPat.noClose]

/-- The shared tail of every parse success: require `"subject"` and
`"body"` (with Python `and` short-circuit), clean the body, construct
the response — any step may raise (lines 242-250 and analogues). -/
def finishParsed (parsed : JsonValue) : Except PyExc (Option ExcuseResponse) :=
  match pyIn "subject" parsed with
  | Except.error e => Except.error e
  | Except.ok false => Except.ok none
  | Except.ok true =>
    match pyIn "body" parsed with
    | Except.error e => Except.error e
    | Except.ok false => Except.ok none
    | Except.ok true =>
      match pyGetItem parsed "body" with
      | Except.error e => Except.error e
      | Except.ok bodyv =>
        match pyCleanBody bodyv with
        | Except.error e => Except.error e
        | Except.ok body =>
          match pyGetItem parsed "subject" with
          | Except.error e => Except.error e
          | Except.ok subjv =>
            match mkSuccess subjv body with
            | Except.error e => Except.error e
            | Except.ok resp => Except.ok (some resp)

/-- One Approach-1 pattern: search, unescape the captured group, parse
it as JSON, and finish.  `Except.ok none` means the pattern did not
yield a response (no match, or keys missing). -/
def stepTextPattern (sp : Char × Char × Bool) (s : String) :
    Except PyExc (Option ExcuseResponse) :=
  match searchTextPat sp s.data with
  | none => Except.ok none
  | some groupChars =>
    match jsonLoads (cleanupEscapes (String.mk groupChars)) with
    | Except.error _ => Except.error PyExc.jsonDecodeError
    | Except.ok parsed => finishParsed parsed

/-- Approach-1 loop (lines 231-253): only `json.JSONDecodeError` is
caught and turned into `continue`; every other exception propagates. -/
def runTextPatterns : List (Char × Char × Bool) → String → Except PyExc (Option ExcuseResponse)
  | [], _ => Except.ok none
  | sp :: rest, s =>
    match stepTextPattern sp s with
    | Except.ok (some resp) => Except.ok (some resp)
    | Except.ok none => runTextPatterns rest s
    | Except.error PyExc.jsonDecodeError => runTextPatterns rest s
    | Except.error e => Except.error e

/-- One Approach-2 pattern: search, parse `group(0)` as JSON (no
pre-cleaning in the source here), and finish. -/
def stepJsonPattern (jp : JPat) (s : String) : Except PyExc (Option ExcuseResponse) :=
  match searchJsonPat jp s.data with
  | none => Except.ok none
  | some groupChars =>
    match jsonLoads (String.mk groupChars) with
    | Except.error _ => Except.error PyExc.jsonDecodeError
    | Except.ok parsed => finishParsed parsed

/-- Approach-2 loop (lines 262-281): same containment as Approach 1. -/
def runJsonPatterns : List JPat → String → Except PyExc (Option ExcuseResponse)
  | [], _ => Except.ok none
  | jp :: rest, s =>
    match stepJsonPattern jp s with
    | Except.ok (some resp) => Except.ok (some resp)
    | Except.ok none => runJsonPatterns rest s
    | Except.error PyExc.jsonDecodeError => runJsonPatterns rest s
    | Except.error e => Except.error e

/-- Approach 3 (lines 283-296): parse the whole stripped content; a
decode failure is passed over, and the result must be a dict. -/
def wholeParse (s : String) : Except PyExc (Option ExcuseResponse) :=
  match jsonLoads (pyStrip s) with
  | Except.error _ => Except.ok none
  | Except.ok parsed =>
    match parsed with
    | JsonValue.obj kvs => finishParsed (JsonValue.obj kvs)
    | _ => Except.ok none

/-- The literal `"subject":` of the Approach-4 subject pattern. -/
def subjectKeyLit : List Char := "\"subject\":".data
/-- The literal `"body":` of the Approach-4 body pattern. -/
def bodyKeyLit : List Char := "\"body\":".data

/-- Try `"key":\s*"([^"]+)"` at this start position; returns `group(1)`. -/
def tryKVAt (keyLit : List Char) (l : List Char) : Option (List Char) :=
  match matchLit keyLit l with
  | none => none
  | some r1 =>
    match r1.dropWhile pyIsSpace with
    | '"' :: r3 =>
      match scanQuote '"' r3 with
      | none => none
      | some seg => if seg.isEmpty then none else some seg
    | _ => none

/-- `re.search` for an Approach-4 key/value pattern. -/
def searchKV (keyLit : List Char) (l : List Char) : Option (List Char) :=
  searchScan (tryKVAt keyLit) l

/-- Approach 4 (lines 298-310): independent regex extraction of the
two values; only the body is unescaped.  Raises nothing. -/
def kvFallback (s : String) : Option ExcuseResponse :=
  match searchKV subjectKeyLit s.data, searchKV bodyKeyLit s.data with
  | some subjChars, some bodyChars =>
    some ⟨String.mk subjChars, cleanupEscapes (String.mk bodyChars), true, none⟩
  | _, _ => none

/-- The four parsing approaches in order on a string content;
`Except.ok none` means every strategy was exhausted. -/
def strategies (s : String) : Except PyExc (Option ExcuseResponse) :=
  match runTextPatterns textPatternSpecs s with
  | Except.error e => Except.error e
  | Except.ok (some resp) => Except.ok (some resp)
  | Except.ok none =>
    match runJsonPatterns jsonPatternSpecs s with
    | Except.error e => Except.error e
    | Except.ok (some resp) => Except.ok (some resp)
    | Except.ok none =>
      match wholeParse s with
      | Except.error e => Except.error e
      | Except.ok (some resp) => Except.ok (some resp)
      | Except.ok none => Except.ok (kvFallback s)

/-- Python `repr` of a string: quote choice and escaping as `repr`
renders the common cases (backslash, quote, newline, tab, carriage
return); other characters are kept as-is. -/
def pyReprStr (s : String) : String :=
  let q := if s.data.contains '\'' && !(s.data.contains '"') then '"' else '\''
  let esc := fun (c : Char) =>
    if c = '\\' then ['\\', '\\']
    else if c = q then ['\\', q]
    else if c = '\n' then ['\\', 'n']
    else if c = '\r' then ['\\', 'r']
    else if c = '\t' then ['\\', 't']
    else [c]
  String.mk ((q :: s.data.flatMap esc) ++ [q])

/-- Python `repr` of a JSON-derived value (`str(dict)` renders through
`repr` of the elements). -/
def pyRepr : JsonValue → String
  | JsonValue.null => "None"
  | JsonValue.bool true => "True"
  | JsonValue.bool false => "False"
  | JsonValue.num n => toString n
  | JsonValue.str s => pyReprStr s
  | JsonValue.arr xs =>
    "[" ++ String.intercalate ", " (xs.attach.map (fun x => pyRepr x.1)) ++ "]"
  | JsonValue.obj kvs =>
    "\x7b" ++
      String.intercalate ", "
        (kvs.attach.map (fun kv => pyReprStr kv.1.1 ++ ": " ++ pyRepr kv.1.2)) ++ "\x7d"
termination_by v => sizeOf v
decreasing_by
  · have := List.sizeOf_lt_of_mem x.2
    simp only [JsonValue.arr.sizeOf_spec]
    omega
  · have h1 := List.sizeOf_lt_of_mem kv.2
    rcases kv with ⟨⟨k, v⟩, hm⟩
    simp only [JsonValue.obj.sizeOf_spec, Prod.mk.sizeOf_spec] at h1 ⊢
    omega

/-- Python `str()` of a JSON-derived value: identity on strings,
`repr` rendering otherwise. -/
def pyStr : JsonValue → String
  | JsonValue.str s => s
  | v => pyRepr v

/-- `choices[0].get("message", {}).get("content", "")` applied to the
first element of the `choices` list (lines 182-185). -/
def msgContent (c0 : JsonValue) : Except PyExc JsonValue :=
  match pyDotGet c0 "message" (JsonValue.obj []) with
  | Except.error e => Except.error e
  | Except.ok msg => pyDotGet msg "content" (JsonValue.str "")

/-- OpenAI-style branch: `response["choices"][0]...`. -/
def choicesBranch (cv : JsonValue) : Except PyExc JsonValue :=
  match pyIndex0 cv with
  | Except.error e => Except.error e
  | Except.ok c0 => msgContent c0

/-- Databricks-style branch (lines 186-191): `predictions[0].get("candidates", [])`,
then `candidates[0].get("content", "")` if the candidates are truthy
and non-empty; otherwise `content` stays `None`. -/
def predictionsBranch (pv : JsonValue) : Except PyExc JsonValue :=
  match pyIndex0 pv with
  | Except.error e => Except.error e
  | Except.ok p0 =>
    match pyDotGet p0 "candidates" (JsonValue.arr []) with
    | Except.error e => Except.error e
    | Except.ok candidates =>
      if pyTruthy candidates then
        match pyLen candidates with
        | Except.error e => Except.error e
        | Except.ok n =>
          if n > 0 then
            match pyIndex0 candidates with
            | Except.error e => Except.error e
            | Except.ok c0 => pyDotGet c0 "content" (JsonValue.str "")
          else Except.ok JsonValue.null
      else Except.ok JsonValue.null

/-- Tail of the envelope probe once `choices` did not fire: the
`predictions` branch, then the direct `content` field, then
`str(response)` (lines 186-199). -/
def afterChoices (r : Jdict) : Except PyExc JsonValue :=
  match dictGetKey r "predictions" with
  | some pv =>
    match pyLen pv with
    | Except.error e => Except.error e
    | Except.ok n => if n > 0 then predictionsBranch pv else afterPredictions r
  | none => afterPredictions r
where
  /-- The last two probes: direct `content` field, else stringify. -/
  afterPredictions (r : Jdict) : Except PyExc JsonValue :=
    match dictGetKey r "content" with
    | some v => Except.ok v
    | none => Except.ok (JsonValue.str (pyStr (JsonValue.obj r)))

/-- Envelope extraction (lines 180-199): probe `choices`, then
`predictions`, then `content`, else stringify the whole response. -/
def extractContent0 (r : Jdict) : Except PyExc JsonValue :=
  match dictGetKey r "choices" with
  | some cv =>
    match pyLen cv with
    | Except.error e => Except.error e
    | Except.ok n => if n > 0 then choicesBranch cv else afterChoices r
  | none => afterChoices r

/-- List contents are joined with single spaces (lines 202-204). -/
def joinIfList : JsonValue → JsonValue
  | JsonValue.arr xs => JsonValue.str (String.intercalate " " (xs.map pyStr))
  | v => v

/-- Envelope extraction followed by the list join. -/
def extractJoined (r : Jdict) : Except PyExc JsonValue :=
  match extractContent0 r with
  | Except.error e => Except.error e
  | Except.ok c => Except.ok (joinIfList c)

/-- The `if not content` failure response (lines 211-216). -/
def noContentResponse : ExcuseResponse :=
  ⟨"Error", "No content found in LLM response", false,
   some "No content found in LLM response"⟩

/-- First 200 characters of the content (`str(content)[:200]`). -/
def previewOf (s : String) : String := String.mk (s.data.take 200)

/-- The all-strategies-exhausted failure response (lines 315-320). -/
def exhaustResponse (s : String) : ExcuseResponse :=
  ⟨"Error", "Failed to parse LLM response", false,
   some ("Could not extract email from LLM response. Content: " ++ previewOf s ++ "...")⟩

/-- Modelled message text of `str(e)` for each exception kind. -/
def excMessage : PyExc → String
  | PyExc.jsonDecodeError => "JSONDecodeError"
  | PyExc.typeError => "TypeError"
  | PyExc.attributeError => "AttributeError"
  | PyExc.keyError => "KeyError"
  | PyExc.indexError => "IndexError"
  | PyExc.validationError => "ValidationError"

/-- The outer `except Exception` failure response (lines 326-331). -/
def excResponse (e : PyExc) : ExcuseResponse :=
  ⟨"Error", "Failed to generate email: " ++ excMessage e, false, some (excMessage e)⟩

/-- The strategy stage on an extracted content value: Approach 1 runs
only on strings; on a truthy non-string, Approach 2's `re.search`
raises a `TypeError` before anything else can match. -/
def afterContent : JsonValue → Except PyExc ExcuseResponse
  | JsonValue.str s =>
    (match strategies s with
     | Except.error e => Except.error e
     | Except.ok (some resp) => Except.ok resp
     | Except.ok none => Except.ok (exhaustResponse s))
  | _ => Except.error PyExc.typeError

/-- Body of `parse_llm_response` inside its outer `try` (lines 175-320):
extract the content, short-circuit when it is falsy, else run the
strategy cascade. -/
def parseBody (r : Jdict) : Except PyExc ExcuseResponse :=
  match extractJoined r with
  | Except.error e => Except.error e
  | Except.ok content =>
    if pyTruthy content then afterContent content else Except.ok noContentResponse

/-- `parse_llm_response` (lines 172-331): the outer `except Exception`
converts any escaped exception into a failure response. -/
def parse_llm_response (r : Jdict) : ExcuseResponse :=
  match parseBody r with
  | Except.ok resp => resp
  | Except.error e => excResponse e

/-- `parse_llm_response` with the raising behaviour left visible: an
`Except.error` result here would mean an exception reached the caller.
The outer handler catches every `PyExc`, so that never happens. -/
def parse_llm_response_exc (r : Jdict) : Except PyExc ExcuseResponse :=
  match parseBody r with
  | Except.ok resp => Except.ok resp
  | Except.error e => Except.ok (excResponse e)

/-- Modelled from the spec (section 4.2, last paragraph): a variant of
the Approach-1 loop in which a per-call isolation boundary treats ANY
exception inside a pattern as "pattern did not match".  The source
instead catches only `json.JSONDecodeError`. -/
def runTextPatternsContained : List (Char × Char × Bool) → String → Option ExcuseResponse
  | [], _ => none
  | sp :: rest, s =>
    match stepTextPattern sp s with
    | Except.ok (some resp) => some resp
    | _ => runTextPatternsContained rest s

/-- Modelled from the spec: the Approach-2 loop with full per-pattern
exception containment. -/
def runJsonPatternsContained : List JPat → String → Option ExcuseResponse
  | [], _ => none
  | jp :: rest, s =>
    match stepJsonPattern jp s with
    | Except.ok (some resp) => some resp
    | _ => runJsonPatternsContained rest s

/-- Modelled from the spec: the cascade with every strategy's
exceptions contained as "strategy did not match". -/
def strategiesContained (s : String) : Option ExcuseResponse :=
  match runTextPatternsContained textPatternSpecs s with
  | some resp => some resp
  | none =>
    match runJsonPatternsContained jsonPatternSpecs s with
    | some resp => some resp
    | none =>
      match wholeParse s with
      | Except.ok (some resp) => some resp
      | _ => kvFallback s

/-- Modelled from the spec: `normalize` as the spec describes it, with
per-strategy isolation of all exceptions; used to compare the source's
actual behaviour against the claimed one. -/
def parse_llm_responseContainedSpec (r : Jdict) : ExcuseResponse :=
  match extractJoined r with
  | Except.error e => excResponse e
  | Except.ok content =>
    if pyTruthy content then
      match content with
      | JsonValue.str s =>
        (match strategiesContained s with
         | some resp => resp
         | none => exhaustResponse s)
      | other => exhaustResponse (pyStr other)
    else noContentResponse

/-- Content of the C3 round-trip raw response: the model's JSON with
escaped-newline sequences inside the body string. -/
def c3content : String := "\x7b\"subject\":\"S\",\"body\":\"Dear X,\\nhello\\nBest,\\nY\"\x7d"

/-- The C3 raw response: OpenAI-style envelope around `c3content`. -/
def r3ex : Jdict :=
  [("choices",
    JsonValue.arr [JsonValue.obj [("message", JsonValue.obj [("content", JsonValue.str c3content)])]])]

/-- Content of the C5 raw response: the JSON object surrounded by prose. -/
def c5content : String :=
  "prefix text \x7b\"subject\": \"Re: delay\", \"body\": \"text\"\x7d suffix"

/-- The C5 raw response: Databricks-style envelope around `c5content`. -/
def r5ex : Jdict :=
  [("predictions",
    JsonValue.arr
      [JsonValue.obj
        [("candidates",
          JsonValue.arr [JsonValue.obj [("content", JsonValue.str c5content)]])]])]

/-- Content triggering an uncontained strategy exception: the Approach-1
pattern `"text":\s*"(\{.*?\})"` captures the escaped object, whose body
value is the integer 1, so `.replace` raises `AttributeError`; had the
cascade continued, Approach 2 would find the second object and succeed. -/
def c2content : String :=
  "\"text\": \"\x7b\\\"subject\\\": \\\"A\\\", \\\"body\\\": 1\x7d\" \x7b\"subject\": \"S\", \"body\": \"B\"\x7d"

/-- The C2 counterexample raw response. -/
def r2ex : Jdict := [("content", JsonValue.str c2content)]

/-- A content on which the second Approach-1 pattern matches but the
captured group fails to parse, raising `json.JSONDecodeError`. -/
def s1ex : String := "\"text\": \"\x7boops\x7d\""

/-- A content on which the first Approach-2 pattern matches but the
captured group fails to parse, raising `json.JSONDecodeError`. -/
def s2ex : String := "\x7b\"subject\" \"body\"\x7d"

/-- The C10 raw response: a `choices` envelope whose message has no
content, next to a top-level `content` field holding recoverable JSON. -/
def r10ex : Jdict :=
  [("choices", JsonValue.arr [JsonValue.obj [("message", JsonValue.obj [])]]),
   ("content", JsonValue.str "\x7b\"subject\": \"S\", \"body\": \"B\"\x7d")]

/-- The shape every strategy success has: success flag set, no error. -/
def goodResp (x : ExcuseResponse) : Prop := x.success = true ∧ x.error = none

theorem mkSuccess_good (v : JsonValue) (b : String) (x : ExcuseResponse)
    (h : mkSuccess v b = Except.ok x) : goodResp x := by
  cases v <;> simp only [mkSuccess] at h
  case str s => cases h; exact ⟨rfl, rfl⟩
  all_goals exact Except.noConfusion h

theorem finishParsed_good (p : JsonValue) (x : ExcuseResponse)
    (h : finishParsed p = Except.ok (some x)) : goodResp x := by
  unfold finishParsed at h
  repeat' split at h
  all_goals
    first
    | exact Except.noConfusion h
    | (simp only [Except.ok.injEq] at h; exact Option.noConfusion h)
    | (simp only [Except.ok.injEq, Option.some.injEq] at h; subst h;
       exact mkSuccess_good _ _ _ (by assumption))

theorem stepTextPattern_good (sp : Char × Char × Bool) (s : String) (x : ExcuseResponse)
    (h : stepTextPattern sp s = Except.ok (some x)) : goodResp x := by
  unfold stepTextPattern at h
  split at h
  · simp only [Except.ok.injEq] at h; exact Option.noConfusion h
  · split at h
    · exact Except.noConfusion h
    · exact finishParsed_good _ _ h

theorem stepJsonPattern_good (jp : JPat) (s : String) (x : ExcuseResponse)
    (h : stepJsonPattern jp s = Except.ok (some x)) : goodResp x := by
  unfold stepJsonPattern at h
  split at h
  · simp only [Except.ok.injEq] at h; exact Option.noConfusion h
  · split at h
    · exact Except.noConfusion h
    · exact finishParsed_good _ _ h

theorem wholeParse_good (s : String) (x : ExcuseResponse)
    (h : wholeParse s = Except.ok (some x)) : goodResp x := by
  unfold wholeParse at h
  split at h
  · simp only [Except.ok.injEq] at h; exact Option.noConfusion h
  · split at h
    · exact finishParsed_good _ _ h
    · simp only [Except.ok.injEq] at h; exact Option.noConfusion h

theorem kvFallback_good (s : String) (x : ExcuseResponse)
    (h : kvFallback s = some x) : goodResp x := by
  unfold kvFallback at h
  split at h
  · cases h; exact ⟨rfl, rfl⟩
  · exact Option.noConfusion h

theorem runTextPatterns_good : ∀ (l : List (Char × Char × Bool)) (s : String) (x : ExcuseResponse),
    runTextPatterns l s = Except.ok (some x) → goodResp x := by
  intro l
  induction l with
  | nil =>
    intro s x h
    simp only [runTextPatterns, Except.ok.injEq] at h
    exact Option.noConfusion h
  | cons sp rest ih =>
    intro s x h
    unfold runTextPatterns at h
    split at h
    · simp only [Except.ok.injEq, Option.some.injEq] at h
      subst h
      exact stepTextPattern_good _ _ _ (by assumption)
    · exact ih s x h
    · exact ih s x h
    · exact Except.noConfusion h

theorem runJsonPatterns_good : ∀ (l : List JPat) (s : String) (x : ExcuseResponse),
    runJsonPatterns l s = Except.ok (some x) → goodResp x := by
  intro l
  induction l with
  | nil =>
    intro s x h
    simp only [runJsonPatterns, Except.ok.injEq] at h
    exact Option.noConfusion h
  | cons jp rest ih =>
    intro s x h
    unfold runJsonPatterns at h
    split at h
    · simp only [Except.ok.injEq, Option.some.injEq] at h
      subst h
      exact stepJsonPattern_good _ _ _ (by assumption)
    · exact ih s x h
    · exact ih s x h
    · exact Except.noConfusion h

theorem strategies_good (s : String) (x : ExcuseResponse)
    (h : strategies s = Except.ok (some x)) : goodResp x := by
  unfold strategies at h
  split at h
  · exact Except.noConfusion h
  · simp only [Except.ok.injEq, Option.some.injEq] at h
    subst h
    exact runTextPatterns_good _ _ _ (by assumption)
  · split at h
    · exact Except.noConfusion h
    · simp only [Except.ok.injEq, Option.some.injEq] at h
      subst h
      exact runJsonPatterns_good _ _ _ (by assumption)
    · split at h
      · exact Except.noConfusion h
      · simp only [Except.ok.injEq, Option.some.injEq] at h
        subst h
        exact wholeParse_good _ _ (by assumption)
      · simp only [Except.ok.injEq] at h
        exact kvFallback_good s x h

theorem afterContent_ok (c : JsonValue) (x : ExcuseResponse)
    (h : afterContent c = Except.ok x) : goodResp x ∨ ∃ s, x = exhaustResponse s := by
  cases c <;> simp only [afterContent] at h
  case str s =>
    split at h
    · exact Except.noConfusion h
    · cases h; exact Or.inl (strategies_good _ _ (by assumption))
    · cases h; exact Or.inr ⟨s, rfl⟩
  all_goals exact Except.noConfusion h

theorem parseBody_ok (r : Jdict) (v : ExcuseResponse) (h : parseBody r = Except.ok v) :
    goodResp v ∨ v = noContentResponse ∨ ∃ s, v = exhaustResponse s := by
  unfold parseBody at h
  split at h
  · exact Except.noConfusion h
  · split at h
    · rcases afterContent_ok _ _ h with hg | ⟨s, hs⟩
      · exact Or.inl hg
      · exact Or.inr (Or.inr ⟨s, hs⟩)
    · cases h; exact Or.inr (Or.inl rfl)

theorem parse_result_cases (r : Jdict) :
    goodResp (parse_llm_response r) ∨
    parse_llm_response r = noContentResponse ∨
    (∃ s, parse_llm_response r = exhaustResponse s) ∨
    (∃ e, parse_llm_response r = excResponse e) := by
  unfold parse_llm_response
  cases hpb : parseBody r with
  | ok v =>
    rcases parseBody_ok r v hpb with hg | hn | ⟨s, hs⟩
    · exact Or.inl hg
    · exact Or.inr (Or.inl hn)
    · exact Or.inr (Or.inr (Or.inl ⟨s, hs⟩))
  | error e => exact Or.inr (Or.inr (Or.inr ⟨e, rfl⟩))

/-- Claim C1: for every raw dict, `parse_llm_response` terminates in an
`ExcuseResponse` value and no exception reaches the caller — in the
exception-explicit embedding the result is always `Except.ok`. -/
theorem parse_llm_response_never_raises (r : Jdict) :
    parse_llm_response_exc r = Except.ok (parse_llm_response r) := by
  unfold parse_llm_response_exc parse_llm_response
  cases parseBody r <;> rfl

/-- Claim C9: every result of `parse_llm_response` has `success` true
exactly when `error` is `none`, and every failure result carries
subject `"Error"` and a non-empty body. -/
theorem excuse_response_invariant (r : Jdict) :
    ((parse_llm_response r).success = true ↔ (parse_llm_response r).error = none) ∧
    ((parse_llm_response r).success = false →
      (parse_llm_response r).subject = "Error" ∧ (parse_llm_response r).body ≠ "") := by
  rcases parse_result_cases r with ⟨h1, h2⟩ | hn | ⟨s, hs⟩ | ⟨e, he⟩
  · refine ⟨⟨fun _ => h2, fun _ => h1⟩, fun hf => ?_⟩
    rw [h1] at hf
    exact absurd hf (by simp)
  · rw [hn]; exact ⟨by decide, by decide⟩
  · rw [hs]
    refine ⟨by simp [exhaustResponse], fun _ => ⟨rfl, ?_⟩⟩
    exact (by decide : ("Failed to parse LLM response" : String) ≠ "")
  · rw [he]
    refine ⟨by simp [excResponse], fun _ => ⟨rfl, ?_⟩⟩
    cases e <;> decide

/-- Claim C3: the OpenAI-shaped round-trip example is normalized to a
success with subject `"S"` and the body's escaped newlines turned into
literal newlines. -/
theorem openai_roundtrip_example :
    parse_llm_response r3ex = ⟨"S", "Dear X,\nhello\nBest,\nY", true, none⟩ := by
  decide

/-- Claim C5: the Databricks-shaped example with prose around the JSON
object is normalized to a success with the embedded subject and body. -/
theorem databricks_embedded_json_example :
    parse_llm_response r5ex = ⟨"Re: delay", "text", true, none⟩ := by
  decide

/-- Claim C4: whenever envelope extraction yields an empty string or an
absent (`None`) content, `parse_llm_response` returns the no-content
failure response without running any extraction strategy. -/
theorem empty_content_short_circuits (r : Jdict) (c : JsonValue)
    (h1 : extractJoined r = Except.ok c)
    (h2 : c = JsonValue.str "" ∨ c = JsonValue.null) :
    parse_llm_response r = noContentResponse := by
  have hb : parseBody r = Except.ok noContentResponse := by
    unfold parseBody
    rw [h1]
    rcases h2 with h | h <;> subst h <;> rfl
  unfold parse_llm_response
  rw [hb]

theorem empty_content_short_circuits_witness :
    parse_llm_response [("content", JsonValue.str "")] = noContentResponse :=
  empty_content_short_circuits [("content", JsonValue.str "")] (JsonValue.str "")
    (by rfl) (Or.inl rfl)

/-- Claim C6: when the extracted content is a non-empty string on which
every strategy fails, the result is the terminal failure: success is
false and the diagnostic carries a preview of the content truncated to
at most 200 characters. -/
theorem exhausted_cascade_diagnostic (r : Jdict) (s : String)
    (h1 : extractJoined r = Except.ok (JsonValue.str s)) (h2 : s ≠ "")
    (h3 : strategies s = Except.ok none) :
    parse_llm_response r = exhaustResponse s ∧
    (parse_llm_response r).success = false ∧
    (parse_llm_response r).error =
      some ("Could not extract email from LLM response. Content: " ++ previewOf s ++ "...") ∧
    (previewOf s).length ≤ 200 := by
  have ht : pyTruthy (JsonValue.str s) = true := by
    simp [pyTruthy]
    exact h2
  have hb : parseBody r = Except.ok (exhaustResponse s) := by
    unfold parseBody
    rw [h1]
    simp only [ht, if_true]
    simp only [afterContent, h3]
  have hp : parse_llm_response r = exhaustResponse s := by
    unfold parse_llm_response
    rw [hb]
  refine ⟨hp, by rw [hp]; rfl, by rw [hp]; rfl, ?_⟩
  show (s.data.take 200).length ≤ 200
  exact List.length_take_le 200 s.data

theorem exhausted_cascade_diagnostic_witness :
    parse_llm_response [("content", JsonValue.str "no json here at all")] =
      exhaustResponse "no json here at all" ∧
    (previewOf "no json here at all").length ≤ 200 := by
  have h := exhausted_cascade_diagnostic [("content", JsonValue.str "no json here at all")]
    "no json here at all" (by rfl) (by decide) (by rfl)
  exact ⟨h.1, h.2.2.2⟩

/-- Claim C7: `ExcuseRequest` construction succeeds exactly when the
seriousness lies in the inclusive range 1..5, and fails with the
validation error exactly when it does not. -/
theorem excuse_request_seriousness_validation (c t rn sn e : String) (s : Int) :
    ((∃ req, mkExcuseRequest c t s rn sn e = Except.ok req) ↔ (1 ≤ s ∧ s ≤ 5)) ∧
    (mkExcuseRequest c t s rn sn e = Except.error PyExc.validationError ↔ ¬(1 ≤ s ∧ s ≤ 5)) := by
  unfold mkExcuseRequest
  by_cases h : 1 ≤ s ∧ s ≤ 5 <;> simp [h]

theorem excuse_request_seriousness_validation_witness :
    (∃ req, mkExcuseRequest "a" "b" 3 "c" "d" "e" = Except.ok req) ∧
    mkExcuseRequest "a" "b" 7 "c" "d" "e" = Except.error PyExc.validationError :=
  ⟨(excuse_request_seriousness_validation "a" "b" "c" "d" "e" 3).1.mpr (by decide),
   (excuse_request_seriousness_validation "a" "b" "c" "d" "e" 7).2.mpr (by decide)⟩

/-- Claim C8 counterexample: the transformation applied twice is NOT in
general the same as applied once — three backslashes become two after
one pass and one after a second pass. -/
theorem unescape_not_idempotent_globally :
    cleanupEscapes (cleanupEscapes "\\\\\\") ≠ cleanupEscapes "\\\\\\" := by
  decide

/-- Claim C8 (amended): on a string the transformation already leaves
unchanged, a second application changes nothing; the unrestricted
two-equals-one form is refuted by `unescape_not_idempotent_globally`. -/
theorem unescape_idempotent_on_clean (s : String) (h : cleanupEscapes s = s) :
    cleanupEscapes (cleanupEscapes s) = cleanupEscapes s := by
  rw [h]
  exact h

theorem unescape_idempotent_on_clean_witness :
    cleanupEscapes (cleanupEscapes "hello") = cleanupEscapes "hello" :=
  unescape_idempotent_on_clean "hello" (by decide)

/-- Claim C2 counterexample: on `r2ex` an `AttributeError` arises inside
the first extraction approach; it is not contained, strategies 2-4 are
never tried, and the whole normalization becomes the exception failure —
whereas the spec's contained cascade would have recovered a success. -/
theorem strategy_exception_not_contained :
    strategies c2content = Except.error PyExc.attributeError ∧
    parse_llm_response r2ex = excResponse PyExc.attributeError ∧
    (parse_llm_response r2ex).success = false ∧
    parse_llm_responseContainedSpec r2ex = ⟨"S", "B", true, none⟩ :=
  ⟨rfl, rfl, rfl, rfl⟩

/-- Claim C2 (amended): only `json.JSONDecodeError` is contained per
pattern — the loops continue past it — and any other exception escaping
the cascade is converted by the function-level handler into a failure
response, never reaching the caller. -/
theorem decode_error_containment_and_outer_boundary :
    (∀ (sp : Char × Char × Bool) (rest : List (Char × Char × Bool)) (s : String),
       stepTextPattern sp s = Except.error PyExc.jsonDecodeError →
       runTextPatterns (sp :: rest) s = runTextPatterns rest s) ∧
    (∀ (jp : JPat) (rest : List JPat) (s : String),
       stepJsonPattern jp s = Except.error PyExc.jsonDecodeError →
       runJsonPatterns (jp :: rest) s = runJsonPatterns rest s) ∧
    (∀ (r : Jdict) (e : PyExc), parseBody r = Except.error e →
       parse_llm_response r = excResponse e) := by
  refine ⟨?_, ?_, ?_⟩
  · intro sp rest s h
    simp only [runTextPatterns, h]
  · intro jp rest s h
    simp only [runJsonPatterns, h]
  · intro r e h
    unfold parse_llm_response
    rw [h]

theorem decode_error_containment_witness :
    runTextPatterns (('"', '"', true) :: []) s1ex = runTextPatterns [] s1ex ∧
    runJsonPatterns (JPat.noBraces :: []) s2ex = runJsonPatterns [] s2ex ∧
    parse_llm_response r2ex = excResponse PyExc.attributeError :=
  ⟨decode_error_containment_and_outer_boundary.1 ('"', '"', true) [] s1ex (by rfl),
   decode_error_containment_and_outer_boundary.2.1 JPat.noBraces [] s2ex (by rfl),
   decode_error_containment_and_outer_boundary.2.2 r2ex PyExc.attributeError (by rfl)⟩

/-- Claim C10: the envelope probe picks its branch by key presence with
first-match-wins — with a non-empty `choices` list, extraction is a
function of the first choice alone — and on `r10ex` (empty message next
to a recoverable top-level `content`) the result is the no-content
failure. -/
theorem choices_branch_first_match_wins :
    (∀ (r : Jdict) (x : JsonValue) (xs : List JsonValue),
       dictGetKey r "choices" = some (JsonValue.arr (x :: xs)) →
       extractContent0 r = msgContent x) ∧
    parse_llm_response r10ex = noContentResponse := by
  constructor
  · intro r x xs h
    unfold extractContent0
    rw [h]
    simp [pyLen, choicesBranch, pyIndex0]
  · decide

theorem choices_branch_first_match_wins_witness :
    extractContent0 r10ex = msgContent (JsonValue.obj [("message", JsonValue.obj [])]) :=
  choices_branch_first_match_wins.1 r10ex (JsonValue.obj [("message", JsonValue.obj [])]) []
    (by rfl)

theorem excuse_response_invariant_witness :
    (parse_llm_response [("content", JsonValue.str "x")]).subject = "Error" ∧
    (parse_llm_response [("content", JsonValue.str "x")]).body ≠ "" :=
  (excuse_response_invariant [("content", JsonValue.str "x")]).2 (by rfl)
